import Mathlib

/-
Shallow embedding of the todo backend (src/backend): the task data model
and schemas (src/models/task.py), the access gate and token subject
extraction (src/api/middleware/auth.py), the six route handlers
(src/api/routes/tasks.py), and the JWKS TTL cache (src/services/jwks.py).

Modelling conventions:
- Timestamps and calendar dates are natural numbers; each call of
  datetime.utcnow() in the source becomes an explicit clock parameter.
- The database is a list of task rows; the ORM write-back of a mutated
  row is a map over the list keyed by the primary key, and DELETE is a
  filter on the primary key.
- Request bodies are modelled after the pydantic schemas: a field that
  may be absent from the JSON body is an outer Option (none = absent),
  and a field that may be JSON null carries an inner Option.
- FastAPI parses and validates the body before the handler runs, so each
  handler first runs the schema validation, then the access gate, then
  the datastore operation, mirroring the source's control flow.
- Exceptions become Except values over the error taxonomy; HTTP status
  numerals are the transport mapping of those error kinds.
-/

deriving instance DecidableEq for Except

namespace Todo

/-- Error taxonomy of the service (spec section 7): Unauthenticated (401),
Forbidden (403), ValidationError (400), NotFound (404), internal error (500). -/
inductive ApiError where
  | unauthenticated
  | forbidden
  | validationError
  | notFound
  | internalError
deriving Repr, DecidableEq

/-- A row of the `tasks` table (class Task in src/models/task.py). -/
structure Task where
  id : Nat
  user_id : String
  title : String
  description : Option String
  completed : Bool
  priority : String
  due_date : Option Nat
  created_at : Nat
  updated_at : Nat
deriving Repr, DecidableEq

/-- Allowed priority values (src/models/task.py, `allowed` in the validators). -/
def allowedPriorities : List String := ["low", "medium", "high"]

/-- Python str.strip(): drop leading and trailing whitespace.  Written over
the character list so that it reduces inside the kernel. -/
def pyStrip (s : String) : String :=
  String.mk (((s.data.dropWhile Char.isWhitespace).reverse.dropWhile Char.isWhitespace).reverse)

/-- Python str.lower() on ASCII input: lowercase each character. -/
def pyLower (s : String) : String :=
  String.mk (s.data.map Char.toLower)

/-- verify_user_access (src/api/middleware/auth.py lines 174-192): raises
403 Forbidden when the token user id differs from the path user id. -/
def verify_user_access (token_user_id path_user_id : String) : Except ApiError Unit :=
  if token_user_id != path_user_id then .error .forbidden else .ok ()

/-- get_user_id_from_token (src/api/middleware/auth.py lines 147-171),
modelled from the point where verify_token has succeeded: the payload has a
`sub` claim with string value `sub`; `if not user_id` rejects the falsy
(empty) string with 401. -/
def get_user_id_from_token (sub : String) : Except ApiError String :=
  if sub == "" then .error .unauthenticated else .ok sub

/-- Body of POST (TaskCreate schema): `priority` and `due_date` may be absent,
absent and JSON-null priority both reach the value "medium". -/
structure TaskCreateInput where
  title : String
  description : Option String
  priority : Option String
  due_date : Option Nat
deriving Repr, DecidableEq

/-- TaskCreate after pydantic validation. -/
structure TaskCreateData where
  title : String
  description : Option String
  priority : String
  due_date : Option Nat
deriving Repr, DecidableEq

/-- TaskCreate.title_not_empty (src/models/task.py lines 81-87):
`if not v or not v.strip(): raise`, then `return v.strip()`. -/
def TaskCreate.title_not_empty (v : String) : Except ApiError String :=
  if v == "" || pyStrip v == "" then .error .validationError else .ok (pyStrip v)

/-- TaskCreate.title field: Field(min_length=1, max_length=500) followed by
the title_not_empty validator. -/
def TaskCreate.validateTitle (v : String) : Except ApiError String :=
  if v.length < 1 || 500 < v.length then .error .validationError
  else TaskCreate.title_not_empty v

/-- TaskCreate.validate_priority (src/models/task.py lines 89-98): None maps
to "medium"; otherwise the lowercased value must be one of the allowed
values and is stored lowercased.  An absent field takes the declared
default "medium" without running the validator; both paths give "medium",
so the absent and null cases share the `none` branch. -/
def TaskCreate.validate_priority (v : Option String) : Except ApiError String :=
  match v with
  | none => .ok "medium"
  | some s =>
    if pyLower s ∈ allowedPriorities then .ok (pyLower s) else .error .validationError

/-- description field: Field(max_length=5000), optional. -/
def validateDescription (v : Option String) : Except ApiError (Option String) :=
  match v with
  | none => .ok none
  | some s => if 5000 < s.length then .error .validationError else .ok (some s)

/-- Pydantic validation of the TaskCreate schema. -/
def TaskCreate.validate (i : TaskCreateInput) : Except ApiError TaskCreateData :=
  match TaskCreate.validateTitle i.title, validateDescription i.description,
      TaskCreate.validate_priority i.priority with
  | .ok t, .ok d, .ok p => .ok ⟨t, d, p, i.due_date⟩
  | .error e, _, _ => .error e
  | _, .error e, _ => .error e
  | _, _, .error e => .error e

/-- Body of PUT (TaskUpdate schema): an outer `none` means the field is
absent from the body.  `title` and `completed` have no default, so they are
required; `priority` is declared `Field(default="medium")`; `description`
and `due_date` default to null. -/
structure TaskUpdateInput where
  title : Option String
  description : Option String
  completed : Option Bool
  priority : Option String
  due_date : Option Nat
deriving Repr, DecidableEq

/-- TaskUpdate after pydantic validation. -/
structure TaskUpdateData where
  title : String
  description : Option String
  completed : Bool
  priority : String
  due_date : Option Nat
deriving Repr, DecidableEq

/-- TaskUpdate.title_not_empty (src/models/task.py lines 122-128), identical
to the TaskCreate validator. -/
def TaskUpdate.title_not_empty (v : String) : Except ApiError String :=
  if v == "" || pyStrip v == "" then .error .validationError else .ok (pyStrip v)

/-- TaskUpdate.title field: Field(min_length=1, max_length=500) followed by
the title_not_empty validator. -/
def TaskUpdate.validateTitle (v : String) : Except ApiError String :=
  if v.length < 1 || 500 < v.length then .error .validationError
  else TaskUpdate.title_not_empty v

/-- TaskUpdate.validate_priority (src/models/task.py lines 130-137): the
lowercased value must be allowed and is stored lowercased. -/
def TaskUpdate.validate_priority (v : String) : Except ApiError String :=
  if pyLower v ∈ allowedPriorities then .ok (pyLower v) else .error .validationError

/-- TaskUpdate.priority field: absent takes the declared default "medium"
(the validator does not run on defaults); a provided value is validated. -/
def TaskUpdate.priorityOrDefault (v : Option String) : Except ApiError String :=
  match v with
  | none => .ok "medium"
  | some s => TaskUpdate.validate_priority s

/-- Pydantic validation of the TaskUpdate schema: `title` and `completed`
are required (no default), the rest are defaulted when absent. -/
def TaskUpdate.validate (i : TaskUpdateInput) : Except ApiError TaskUpdateData :=
  match i.title, i.completed with
  | none, _ => .error .validationError
  | some _, none => .error .validationError
  | some tv, some c =>
    match TaskUpdate.validateTitle tv, validateDescription i.description,
        TaskUpdate.priorityOrDefault i.priority with
    | .ok t, .ok d, .ok p => .ok ⟨t, d, c, p, i.due_date⟩
    | .error e, _, _ => .error e
    | _, .error e, _ => .error e
    | _, _, .error e => .error e

/-- Body of PATCH (TaskPartialUpdate schema): outer Option tracks whether
the field was present in the body (pydantic exclude_unset), the inner
Option is a JSON null value. -/
structure TaskPartialUpdateInput where
  title : Option (Option String)
  description : Option (Option String)
  completed : Option (Option Bool)
  priority : Option (Option String)
  due_date : Option (Option Nat)
deriving Repr, DecidableEq

/-- TaskPartialUpdate.title field (src/models/task.py lines 155, 161-167):
length constraints apply to a provided string; the validator rejects a
provided empty or whitespace-only string and trims; null passes through. -/
def TaskPartialUpdate.validateTitle (v : Option (Option String)) :
    Except ApiError (Option (Option String)) :=
  match v with
  | some (some s) =>
    if s.length < 1 || 500 < s.length then .error .validationError
    else if s == "" || pyStrip s == "" then .error .validationError
    else .ok (some (some (pyStrip s)))
  | v2 => .ok v2

/-- TaskPartialUpdate.validate_priority (src/models/task.py lines 169-178):
null passes through; a provided value must lowercase into the allowed set. -/
def TaskPartialUpdate.validate_priority (v : Option (Option String)) :
    Except ApiError (Option (Option String)) :=
  match v with
  | some (some s) =>
    if pyLower s ∈ allowedPriorities then .ok (some (some (pyLower s)))
    else .error .validationError
  | v2 => .ok v2

/-- TaskPartialUpdate.description field: Field(max_length=5000) on a
provided string; null passes through. -/
def TaskPartialUpdate.validateDescription (v : Option (Option String)) :
    Except ApiError (Option (Option String)) :=
  match v with
  | some (some s) => if 5000 < s.length then .error .validationError else .ok v
  | v2 => .ok v2

/-- Pydantic validation of the TaskPartialUpdate schema. -/
def TaskPartialUpdate.validate (i : TaskPartialUpdateInput) :
    Except ApiError TaskPartialUpdateInput :=
  match TaskPartialUpdate.validateTitle i.title,
      TaskPartialUpdate.validateDescription i.description,
      TaskPartialUpdate.validate_priority i.priority with
  | .ok t, .ok d, .ok p => .ok ⟨t, d, i.completed, p, i.due_date⟩
  | .error e, _, _ => .error e
  | _, .error e, _ => .error e
  | _, _, .error e => .error e

/-- The shared query shape of the four id-addressed operations
(src/api/routes/tasks.py lines 177, 241, 317, 388):
`select(Task).where(Task.id == task_id, Task.user_id == user_id)` with
`scalar_one_or_none()`. -/
def findTask (db : List Task) (task_id : Nat) (owner : String) : Option Task :=
  db.find? (fun t => t.id == task_id && t.user_id == owner)

/-- create_task (src/api/routes/tasks.py lines 42-91).  The two clock
parameters are the two datetime.utcnow() reads made by the created_at and
updated_at default factories (src/models/task.py lines 59-60), in field
order.  `nextId` is the storage-assigned primary key.  Line 74 is
`priority=task_data.priority or "medium"`, a Python falsy-or. -/
def create_task (db : List Task) (current_user_id user_id : String)
    (body : TaskCreateInput) (nextId tCreated tUpdated : Nat) :
    Except ApiError (Task × List Task) :=
  match TaskCreate.validate body with
  | .error e => .error e
  | .ok data =>
    match verify_user_access current_user_id user_id with
    | .error e => .error e
    | .ok _ =>
      let task : Task :=
        { id := nextId
          user_id := user_id
          title := data.title
          description := data.description
          completed := false
          priority := if data.priority == "" then "medium" else data.priority
          due_date := data.due_date
          created_at := tCreated
          updated_at := tUpdated }
      .ok (task, db ++ [task])

/-- get_task (src/api/routes/tasks.py lines 147-197): access gate, then the
owner-filtered single query; a missing row is 404. -/
def get_task (db : List Task) (current_user_id user_id : String) (task_id : Nat) :
    Except ApiError Task :=
  match verify_user_access current_user_id user_id with
  | .error e => .error e
  | .ok _ =>
    match findTask db task_id user_id with
    | none => .error .notFound
    | some t => .ok t

/-- update_task, PUT (src/api/routes/tasks.py lines 206-273): body
validation (by the framework, before the handler), access gate,
owner-filtered lookup, then overwrite of every mutable field and a fresh
updated_at; the write-back updates the row with the found primary key. -/
def update_task (db : List Task) (current_user_id user_id : String) (task_id : Nat)
    (body : TaskUpdateInput) (now : Nat) : Except ApiError (Task × List Task) :=
  match TaskUpdate.validate body with
  | .error e => .error e
  | .ok data =>
    match verify_user_access current_user_id user_id with
    | .error e => .error e
    | .ok _ =>
      match findTask db task_id user_id with
      | none => .error .notFound
      | some task =>
        let task2 : Task :=
          { task with
            title := data.title
            description := data.description
            completed := data.completed
            priority := data.priority
            due_date := data.due_date
            updated_at := now }
        .ok (task2, db.map (fun t => if t.id == task.id then task2 else t))

/-- The PATCH field application (src/api/routes/tasks.py lines 329-334):
`update_data = task_data.model_dump(exclude_unset=True)` then
`setattr(task, field, value)` per present field, then a fresh updated_at.
Assigning null to one of the NOT NULL columns (title, completed, priority)
makes the commit fail, surfacing as a 500 internal error. -/
def applyPatchFields (task : Task) (data : TaskPartialUpdateInput) (now : Nat) :
    Except ApiError Task :=
  match data.title.getD (some task.title), data.completed.getD (some task.completed),
      data.priority.getD (some task.priority) with
  | some ttl, some cmp, some pri =>
    .ok { task with
          title := ttl
          description := data.description.getD task.description
          completed := cmp
          priority := pri
          due_date := data.due_date.getD task.due_date
          updated_at := now }
  | _, _, _ => .error .internalError

/-- patch_task, PATCH (src/api/routes/tasks.py lines 282-349): body
validation, access gate, owner-filtered lookup, application of the present
fields, refreshed updated_at, write-back by primary key. -/
def patch_task (db : List Task) (current_user_id user_id : String) (task_id : Nat)
    (body : TaskPartialUpdateInput) (now : Nat) : Except ApiError (Task × List Task) :=
  match TaskPartialUpdate.validate body with
  | .error e => .error e
  | .ok data =>
    match verify_user_access current_user_id user_id with
    | .error e => .error e
    | .ok _ =>
      match findTask db task_id user_id with
      | none => .error .notFound
      | some task =>
        match applyPatchFields task data now with
        | .error e => .error e
        | .ok task2 =>
          .ok (task2, db.map (fun t => if t.id == task.id then task2 else t))

/-- delete_task (src/api/routes/tasks.py lines 358-413): access gate,
owner-filtered lookup, then removal of the row by primary key. -/
def delete_task (db : List Task) (current_user_id user_id : String) (task_id : Nat) :
    Except ApiError (List Task) :=
  match verify_user_access current_user_id user_id with
  | .error e => .error e
  | .ok _ =>
    match findTask db task_id user_id with
    | none => .error .notFound
    | some task => .ok (db.filter (fun t => !(t.id == task.id)))

/-- Remote key-set fetch outcome (httpx errors collapse to one kind). -/
inductive FetchError where
  | httpError
deriving Repr, DecidableEq

/-- A fetched key set (opaque: the list of key ids suffices). -/
abbrev JWKS := List String

/-- One entry of the module-level TTLCache `_jwks_cache`
(src/services/jwks.py line 19): the value and its absolute expiry time,
set to fetch time plus the ttl on insertion. -/
structure TTLEntry where
  value : JWKS
  expires : Nat
deriving Repr, DecidableEq

/-- The TTL of `_jwks_cache` in seconds. -/
def jwksTtl : Nat := 3600

/-- TTLCache lookup semantics (cachetools): a key is present iff an entry
exists and the current time is before its expiry; expired entries behave
exactly like absent ones. -/
def cacheLookup (cache : Option TTLEntry) (now : Nat) : Option JWKS :=
  match cache with
  | some e => if now < e.expires then some e.value else none
  | none => none

/-- JWKSService.fetch_jwks (src/services/jwks.py lines 47-88) for the one
cache key `self.jwks_url`: serve the cache unless forced or missing; else
fetch, caching a success with a fresh expiry; on fetch failure fall back to
the cache if the key is (still) present, else re-raise.  `remote` is the
outcome the HTTP GET would have at this instant. -/
def fetch_jwks (cache : Option TTLEntry) (now : Nat) (force_refresh : Bool)
    (remote : Except FetchError JWKS) : Except FetchError (JWKS × Option TTLEntry) :=
  match force_refresh, cacheLookup cache now with
  | false, some v => .ok (v, cache)
  | _, _ =>
    match remote with
    | .ok jwks => .ok (jwks, some ⟨jwks, now + jwksTtl⟩)
    | .error e =>
      match cacheLookup cache now with
      | some v => .ok (v, cache)
      | none => .error e

lemma verify_user_access_self (u : String) : verify_user_access u u = .ok () := by
  simp [verify_user_access]

lemma pyStrip_empty : pyStrip "" = "" := rfl

lemma one_le_length_of_ne_empty (s : String) (h : s ≠ "") : 1 ≤ s.length := by
  cases s with
  | mk data =>
    cases data with
    | nil => exact absurd rfl h
    | cons c cs => simp [String.length]

/-- C2: the access gate fails with Forbidden exactly when the subject
identifier and the path owner identifier differ as case-sensitive strings,
and returns unit when they are equal; it is a pure function of its two
arguments. -/
theorem verify_user_access_forbidden_iff (a b : String) :
    (verify_user_access a b = .error .forbidden ↔ a ≠ b) ∧
    (verify_user_access a b = .ok () ↔ a = b) := by
  unfold verify_user_access
  by_cases h : a = b
  · subst h; simp
  · simp [h]

theorem verify_user_access_forbidden_iff_witness :
    verify_user_access "alice" "bob" = .error .forbidden ∧
    verify_user_access "alice" "alice" = .ok () :=
  ⟨(verify_user_access_forbidden_iff "alice" "bob").1.mpr (by decide),
   (verify_user_access_forbidden_iff "alice" "alice").2.mpr rfl⟩

/-- C10: after a token verifies, an empty `sub` claim is rejected with
Unauthenticated rather than becoming an empty subject identifier, so every
subject identifier the gate receives is a non-empty string. -/
theorem empty_sub_claim_rejected :
    get_user_id_from_token "" = .error .unauthenticated ∧
    ∀ s u, get_user_id_from_token s = .ok u → u ≠ "" := by
  refine ⟨rfl, ?_⟩
  intro s u h
  unfold get_user_id_from_token at h
  by_cases hs : s = ""
  · subst hs; simp at h
  · simp [hs] at h
    exact h ▸ hs

theorem empty_sub_claim_rejected_witness :
    get_user_id_from_token "alice" = .ok "alice" ∧ ("alice" : String) ≠ "" :=
  ⟨rfl, empty_sub_claim_rejected.2 "alice" "alice" rfl⟩

/-- C4 (code bug): `_jwks_cache` is a TTLCache, which treats an entry as
absent once its ttl elapses, so the stale-fallback branch of fetch_jwks
(the `cache_key in _jwks_cache` check in the except handler) can never
fire after expiry, contrary to the source comment "even if expired" and to
the claim: with a key set fetched at time 0 (expiry 3600) and the remote
call failing at time 4000, the failure propagates although a previously
fetched value exists.  Before expiry, a forced refresh whose fetch fails
does fall back to the cached value, the only case the fallback serves. -/
theorem fetch_jwks_no_stale_after_expiry :
    fetch_jwks (some ⟨["kid1"], 3600⟩) 4000 false (.error .httpError) =
      .error .httpError ∧
    fetch_jwks (some ⟨["kid1"], 3600⟩) 1000 true (.error .httpError) =
      .ok (["kid1"], some ⟨["kid1"], 3600⟩) ∧
    fetch_jwks none 4000 false (.error .httpError) = .error .httpError :=
  ⟨rfl, rfl, rfl⟩

/-- C3 (code bug): TaskUpdate declares `priority: str = Field(default="medium")`
although its own docstring says all PUT fields are required, so a PUT body
omitting priority passes validation and silently resets the stored
priority "high" to the default "medium" instead of failing with
ValidationError and leaving the row unchanged.  Omitting title or
completed is rejected as the claim states. -/
theorem put_priority_not_required :
    update_task [⟨1, "u1", "old title", none, false, "high", none, 0, 0⟩] "u1" "u1" 1
        ⟨some "new title", none, some false, none, none⟩ 5 =
      .ok (⟨1, "u1", "new title", none, false, "medium", none, 0, 5⟩,
           [⟨1, "u1", "new title", none, false, "medium", none, 0, 5⟩]) ∧
    TaskUpdate.validate ⟨none, none, some false, some "high", none⟩ =
      .error .validationError ∧
    TaskUpdate.validate ⟨some "x", none, none, some "high", none⟩ =
      .error .validationError :=
  ⟨by decide, rfl, rfl⟩

/-- C5 counterexample: created_at and updated_at are produced by two
separate datetime.utcnow() reads (the two default factories in
src/models/task.py lines 59-60); when the clock advances between the reads
(here 0 then 1), a fully valid create returns a task whose created_at
differs from its updated_at, refuting the claimed equality. -/
theorem create_timestamps_can_differ :
    create_task [] "u1" "u1" ⟨"Buy milk", none, none, none⟩ 1 0 1 =
      .ok (⟨1, "u1", "Buy milk", none, false, "medium", none, 0, 1⟩,
           [⟨1, "u1", "Buy milk", none, false, "medium", none, 0, 1⟩]) ∧
    ¬ (∀ tk : Task, ∀ db2 : List Task,
        create_task [] "u1" "u1" ⟨"Buy milk", none, none, none⟩ 1 0 1 = .ok (tk, db2) →
        tk.created_at = tk.updated_at) :=
  ⟨by decide, fun h =>
    absurd (h ⟨1, "u1", "Buy milk", none, false, "medium", none, 0, 1⟩
      [⟨1, "u1", "Buy milk", none, false, "medium", none, 0, 1⟩] (by decide)) (by decide)⟩

/-- C5 (amended): for every valid create, the returned task's owner equals
the path user_id, completed is false, and created_at and updated_at are
the two successive clock reads taken at creation, so created_at ≤
updated_at, with equality exactly when the two reads coincide. -/
theorem create_task_fields (db : List Task) (cur uid : String)
    (body : TaskCreateInput) (nextId t1 t2 : Nat) (tk : Task) (db2 : List Task)
    (hclock : t1 ≤ t2)
    (h : create_task db cur uid body nextId t1 t2 = .ok (tk, db2)) :
    tk.user_id = uid ∧ tk.completed = false ∧ tk.created_at = t1 ∧
    tk.updated_at = t2 ∧ tk.created_at ≤ tk.updated_at := by
  unfold create_task at h
  cases hv : TaskCreate.validate body with
  | error e => rw [hv] at h; cases h
  | ok data =>
    rw [hv] at h
    cases hg : verify_user_access cur uid with
    | error e => rw [hg] at h; cases h
    | ok _ =>
      rw [hg] at h
      simp only [Except.ok.injEq, Prod.mk.injEq] at h
      obtain ⟨h1, h2⟩ := h
      subst h1
      exact ⟨rfl, rfl, rfl, rfl, hclock⟩

theorem create_task_fields_witness :
    (⟨1, "u1", "Buy milk", none, false, "medium", none, 0, 1⟩ : Task).user_id = "u1" ∧
    (⟨1, "u1", "Buy milk", none, false, "medium", none, 0, 1⟩ : Task).completed = false ∧
    (⟨1, "u1", "Buy milk", none, false, "medium", none, 0, 1⟩ : Task).created_at = 0 ∧
    (⟨1, "u1", "Buy milk", none, false, "medium", none, 0, 1⟩ : Task).updated_at = 1 ∧
    (⟨1, "u1", "Buy milk", none, false, "medium", none, 0, 1⟩ : Task).created_at ≤
      (⟨1, "u1", "Buy milk", none, false, "medium", none, 0, 1⟩ : Task).updated_at :=
  create_task_fields [] "u1" "u1" ⟨"Buy milk", none, none, none⟩ 1 0 1
    ⟨1, "u1", "Buy milk", none, false, "medium", none, 0, 1⟩
    [⟨1, "u1", "Buy milk", none, false, "medium", none, 0, 1⟩]
    (by decide) (by decide)

/-- C7: on create and on both update schemas, a title that is the empty
string, whitespace-only, or longer than 500 characters is a
ValidationError, while valid content with surrounding whitespace (within
the 500-character bound, which applies to the raw string) is accepted and
stored stripped. -/
theorem title_validation (s : String) :
    (TaskCreate.validateTitle "" = .error .validationError) ∧
    (TaskUpdate.validateTitle "" = .error .validationError) ∧
    (pyStrip s = "" → TaskCreate.validateTitle s = .error .validationError) ∧
    (pyStrip s = "" → TaskUpdate.validateTitle s = .error .validationError) ∧
    (pyStrip s = "" →
      TaskPartialUpdate.validateTitle (some (some s)) = .error .validationError) ∧
    (500 < s.length → TaskCreate.validateTitle s = .error .validationError) ∧
    (500 < s.length → TaskUpdate.validateTitle s = .error .validationError) ∧
    (500 < s.length →
      TaskPartialUpdate.validateTitle (some (some s)) = .error .validationError) ∧
    (pyStrip s ≠ "" → s.length ≤ 500 → TaskCreate.validateTitle s = .ok (pyStrip s)) ∧
    (pyStrip s ≠ "" → s.length ≤ 500 → TaskUpdate.validateTitle s = .ok (pyStrip s)) ∧
    (pyStrip s ≠ "" → s.length ≤ 500 →
      TaskPartialUpdate.validateTitle (some (some s)) = .ok (some (some (pyStrip s)))) := by
  refine ⟨by decide, by decide, ?_, ?_, ?_, ?_, ?_, ?_, ?_, ?_, ?_⟩
  · intro h
    unfold TaskCreate.validateTitle TaskCreate.title_not_empty
    split
    · rfl
    · simp [h]
  · intro h
    unfold TaskUpdate.validateTitle TaskUpdate.title_not_empty
    split
    · rfl
    · simp [h]
  · intro h
    simp only [TaskPartialUpdate.validateTitle]
    split
    · rfl
    · simp [h]
  · intro h
    simp [TaskCreate.validateTitle, h]
  · intro h
    simp [TaskUpdate.validateTitle, h]
  · intro h
    simp [TaskPartialUpdate.validateTitle, h]
  · intro h1 h2
    have hs : s ≠ "" := fun he => h1 (by rw [he]; rfl)
    have hl : 1 ≤ s.length := one_le_length_of_ne_empty s hs
    have hc1 : (decide (s.length < 1) || decide (500 < s.length)) = false := by
      simp; omega
    have hc2 : (s == "" || pyStrip s == "") = false := by
      rw [Bool.or_eq_false_iff]
      exact ⟨beq_eq_false_iff_ne.mpr hs, beq_eq_false_iff_ne.mpr h1⟩
    simp only [TaskCreate.validateTitle, TaskCreate.title_not_empty, hc1, hc2]
    rfl
  · intro h1 h2
    have hs : s ≠ "" := fun he => h1 (by rw [he]; rfl)
    have hl : 1 ≤ s.length := one_le_length_of_ne_empty s hs
    have hc1 : (decide (s.length < 1) || decide (500 < s.length)) = false := by
      simp; omega
    have hc2 : (s == "" || pyStrip s == "") = false := by
      rw [Bool.or_eq_false_iff]
      exact ⟨beq_eq_false_iff_ne.mpr hs, beq_eq_false_iff_ne.mpr h1⟩
    simp only [TaskUpdate.validateTitle, TaskUpdate.title_not_empty, hc1, hc2]
    rfl
  · intro h1 h2
    have hs : s ≠ "" := fun he => h1 (by rw [he]; rfl)
    have hl : 1 ≤ s.length := one_le_length_of_ne_empty s hs
    have hc1 : (decide (s.length < 1) || decide (500 < s.length)) = false := by
      simp; omega
    have hc2 : (s == "" || pyStrip s == "") = false := by
      rw [Bool.or_eq_false_iff]
      exact ⟨beq_eq_false_iff_ne.mpr hs, beq_eq_false_iff_ne.mpr h1⟩
    simp only [TaskPartialUpdate.validateTitle, hc1, hc2]
    rfl

theorem title_validation_witness :
    TaskCreate.validateTitle "   " = .error .validationError ∧
    TaskCreate.validateTitle (String.mk (List.replicate 501 'a')) =
      .error .validationError ∧
    TaskCreate.validateTitle "  Buy milk  " = .ok "Buy milk" ∧
    TaskUpdate.validateTitle "  Buy milk  " = .ok "Buy milk" ∧
    TaskPartialUpdate.validateTitle (some (some "  Buy milk  ")) =
      .ok (some (some "Buy milk")) := by
  refine ⟨(title_validation "   ").2.2.1 (by decide),
    (title_validation (String.mk (List.replicate 501 'a'))).2.2.2.2.2.1
      (by simp only [String.length, List.length_replicate]; omega),
    ?_, ?_, ?_⟩
  · exact (title_validation "  Buy milk  ").2.2.2.2.2.2.2.2.1 (by decide) (by decide)
  · exact (title_validation "  Buy milk  ").2.2.2.2.2.2.2.2.2.1 (by decide) (by decide)
  · exact (title_validation "  Buy milk  ").2.2.2.2.2.2.2.2.2.2 (by decide) (by decide)

lemma TaskCreate.validate_ok_fields (i : TaskCreateInput) (data : TaskCreateData)
    (h : TaskCreate.validate i = .ok data) :
    TaskCreate.validateTitle i.title = .ok data.title ∧
    validateDescription i.description = .ok data.description ∧
    TaskCreate.validate_priority i.priority = .ok data.priority ∧
    data.due_date = i.due_date := by
  unfold TaskCreate.validate at h
  cases ht : TaskCreate.validateTitle i.title <;>
    cases hd : validateDescription i.description <;>
      cases hp : TaskCreate.validate_priority i.priority <;>
        rw [ht, hd, hp] at h <;> cases h
  exact ⟨rfl, rfl, rfl, rfl⟩

/-- C8: a create priority is accepted iff it case-insensitively matches
low, medium or high; accepted values are stored lowercased; any other
value is a ValidationError; an omitted (or null) priority validates to
medium. -/
theorem priority_validation (s : String) (i : TaskCreateInput) (data : TaskCreateData) :
    (TaskCreate.validate_priority none = .ok "medium") ∧
    (pyLower s ∈ allowedPriorities →
      TaskCreate.validate_priority (some s) = .ok (pyLower s)) ∧
    (pyLower s ∉ allowedPriorities →
      TaskCreate.validate_priority (some s) = .error .validationError) ∧
    (TaskCreate.validate i = .ok data → i.priority = none → data.priority = "medium") ∧
    (TaskCreate.validate i = .ok data → i.priority = some s →
      data.priority = pyLower s) := by
  refine ⟨rfl, ?_, ?_, ?_, ?_⟩
  · intro h
    simp [TaskCreate.validate_priority, h]
  · intro h
    simp [TaskCreate.validate_priority, h]
  · intro h hp
    obtain ⟨-, -, hpri, -⟩ := TaskCreate.validate_ok_fields i data h
    rw [hp] at hpri
    simp only [TaskCreate.validate_priority] at hpri
    injection hpri with h2
    exact h2.symm
  · intro h hp
    obtain ⟨-, -, hpri, -⟩ := TaskCreate.validate_ok_fields i data h
    rw [hp] at hpri
    simp only [TaskCreate.validate_priority] at hpri
    by_cases hm : pyLower s ∈ allowedPriorities
    · rw [if_pos hm] at hpri
      injection hpri with h2
      exact h2.symm
    · rw [if_neg hm] at hpri
      cases hpri

theorem priority_validation_witness :
    TaskCreate.validate_priority (some "HIGH") = .ok "high" ∧
    TaskCreate.validate_priority (some "urgent") = .error .validationError ∧
    TaskCreate.validate_priority none = .ok "medium" ∧
    (⟨"t", none, "medium", none⟩ : TaskCreateData).priority = "medium" := by
  have h1 := priority_validation "HIGH" ⟨"t", none, none, none⟩ ⟨"t", none, "medium", none⟩
  have h2 := priority_validation "urgent" ⟨"t", none, none, none⟩ ⟨"t", none, "medium", none⟩
  exact ⟨h1.2.1 (by decide), h2.2.2.1 (by decide), h1.1,
    h1.2.2.2.1 (by decide) rfl⟩

lemma TaskPartialUpdate.validateTitle_ok (v r : Option (Option String))
    (h : TaskPartialUpdate.validateTitle v = .ok r) :
    r = v.map (Option.map pyStrip) := by
  cases v with
  | none => cases h; rfl
  | some o =>
    cases o with
    | none => cases h; rfl
    | some s =>
      simp only [TaskPartialUpdate.validateTitle] at h
      split at h
      · cases h
      · split at h
        · cases h
        · cases h; rfl

lemma TaskPartialUpdate.validate_priority_ok (v r : Option (Option String))
    (h : TaskPartialUpdate.validate_priority v = .ok r) :
    r = v.map (Option.map pyLower) := by
  cases v with
  | none => cases h; rfl
  | some o =>
    cases o with
    | none => cases h; rfl
    | some s =>
      simp only [TaskPartialUpdate.validate_priority] at h
      split at h
      · cases h; rfl
      · cases h

lemma TaskPartialUpdate.validateDescription_ok (v r : Option (Option String))
    (h : TaskPartialUpdate.validateDescription v = .ok r) : r = v := by
  cases v with
  | none => cases h; rfl
  | some o =>
    cases o with
    | none => cases h; rfl
    | some s =>
      simp only [TaskPartialUpdate.validateDescription] at h
      split at h
      · cases h
      · cases h; rfl

lemma TaskPartialUpdate.validate_ok_shape (i data : TaskPartialUpdateInput)
    (h : TaskPartialUpdate.validate i = .ok data) :
    data.title = i.title.map (Option.map pyStrip) ∧
    data.description = i.description ∧
    data.completed = i.completed ∧
    data.priority = i.priority.map (Option.map pyLower) ∧
    data.due_date = i.due_date := by
  unfold TaskPartialUpdate.validate at h
  cases ht : TaskPartialUpdate.validateTitle i.title <;>
    cases hd : TaskPartialUpdate.validateDescription i.description <;>
      cases hp : TaskPartialUpdate.validate_priority i.priority <;>
        rw [ht, hd, hp] at h <;> cases h
  exact ⟨TaskPartialUpdate.validateTitle_ok _ _ ht,
    (TaskPartialUpdate.validateDescription_ok _ _ hd).symm ▸ rfl,
    rfl,
    TaskPartialUpdate.validate_priority_ok _ _ hp,
    rfl⟩

lemma applyPatchFields_ok (t : Task) (data : TaskPartialUpdateInput) (now : Nat)
    (t2 : Task) (h : applyPatchFields t data now = .ok t2) :
    data.title.getD (some t.title) = some t2.title ∧
    data.completed.getD (some t.completed) = some t2.completed ∧
    data.priority.getD (some t.priority) = some t2.priority ∧
    t2.description = data.description.getD t.description ∧
    t2.due_date = data.due_date.getD t.due_date ∧
    t2.id = t.id ∧ t2.user_id = t.user_id ∧ t2.created_at = t.created_at ∧
    t2.updated_at = now := by
  unfold applyPatchFields at h
  cases hT : data.title.getD (some t.title) <;>
    cases hC : data.completed.getD (some t.completed) <;>
      cases hP : data.priority.getD (some t.priority) <;>
        rw [hT, hC, hP] at h <;> cases h
  exact ⟨rfl, rfl, rfl, rfl, rfl, rfl, rfl, rfl, rfl⟩

/-- C9: a PATCH with an empty body on an existing owned task succeeds,
leaving every data field (title, description, completed, priority,
due_date) unchanged and refreshing only updated_at; the empty subset is
not a validation error. -/
theorem patch_empty_body_ok (db : List Task) (u : String) (tid now : Nat)
    (t : Task) (hfind : findTask db tid u = some t) :
    patch_task db u u tid ⟨none, none, none, none, none⟩ now =
      .ok ({ t with updated_at := now },
           db.map (fun x => if x.id == t.id then { t with updated_at := now } else x)) := by
  simp only [patch_task, TaskPartialUpdate.validate, TaskPartialUpdate.validateTitle,
    TaskPartialUpdate.validateDescription, TaskPartialUpdate.validate_priority,
    verify_user_access_self, hfind, applyPatchFields, Option.getD]

theorem patch_empty_body_ok_witness :
    patch_task [⟨1, "u1", "t", some "d", true, "low", some 7, 2, 3⟩] "u1" "u1" 1
        ⟨none, none, none, none, none⟩ 9 =
      .ok (⟨1, "u1", "t", some "d", true, "low", some 7, 2, 9⟩,
           [⟨1, "u1", "t", some "d", true, "low", some 7, 2, 9⟩]) :=
  patch_empty_body_ok [⟨1, "u1", "t", some "d", true, "low", some 7, 2, 3⟩]
    "u1" 1 9 ⟨1, "u1", "t", some "d", true, "low", some 7, 2, 3⟩ (by decide)

/-- C6: a PATCH supplying a subset of fields keeps every field not named
in the body identical to its pre-update value (and never touches id,
owner, or created_at), applies exactly the supplied values (title stored
stripped, priority stored lowercased), and sets updated_at to the
patch-time clock read, strictly increasing it whenever that read is later
than the stored value, regardless of whether the supplied values differ
from the stored ones. -/
theorem patch_subset_frame (db : List Task) (u : String) (tid now : Nat)
    (body : TaskPartialUpdateInput) (t t2 : Task) (db2 : List Task)
    (hfind : findTask db tid u = some t)
    (hrun : patch_task db u u tid body now = .ok (t2, db2)) :
    (body.title = none → t2.title = t.title) ∧
    (body.description = none → t2.description = t.description) ∧
    (body.completed = none → t2.completed = t.completed) ∧
    (body.priority = none → t2.priority = t.priority) ∧
    (body.due_date = none → t2.due_date = t.due_date) ∧
    t2.id = t.id ∧ t2.user_id = t.user_id ∧ t2.created_at = t.created_at ∧
    t2.updated_at = now ∧
    (t.updated_at < now → t.updated_at < t2.updated_at) ∧
    (∀ s, body.title = some (some s) → t2.title = pyStrip s) ∧
    (∀ b, body.completed = some (some b) → t2.completed = b) ∧
    (∀ s, body.priority = some (some s) → t2.priority = pyLower s) ∧
    (∀ d, body.description = some d → t2.description = d) ∧
    (∀ d, body.due_date = some d → t2.due_date = d) := by
  unfold patch_task at hrun
  cases hv : TaskPartialUpdate.validate body with
  | error e => rw [hv] at hrun; cases hrun
  | ok data =>
    simp only [hv, verify_user_access_self, hfind] at hrun
    cases ha : applyPatchFields t data now with
    | error e => rw [ha] at hrun; cases hrun
    | ok t3 =>
      rw [ha] at hrun
      simp only [Except.ok.injEq, Prod.mk.injEq] at hrun
      obtain ⟨hrun1, hrun2⟩ := hrun
      rw [← hrun1]
      obtain ⟨hsT, hsD, hsC, hsP, hsDD⟩ := TaskPartialUpdate.validate_ok_shape body data hv
      obtain ⟨haT, haC, haP, haD, haDD, haId, haUid, haCr, haUp⟩ :=
        applyPatchFields_ok t data now t3 ha
      refine ⟨?_, ?_, ?_, ?_, ?_, haId, haUid, haCr, haUp, ?_, ?_, ?_, ?_, ?_, ?_⟩
      · intro hb
        rw [hb] at hsT
        rw [hsT] at haT
        exact (Option.some.inj haT).symm
      · intro hb
        rw [hb] at hsD
        rw [haD, hsD]
        rfl
      · intro hb
        rw [hb] at hsC
        rw [hsC] at haC
        exact (Option.some.inj haC).symm
      · intro hb
        rw [hb] at hsP
        rw [hsP] at haP
        exact (Option.some.inj haP).symm
      · intro hb
        rw [hb] at hsDD
        rw [haDD, hsDD]
        rfl
      · intro hlt
        rw [haUp]
        exact hlt
      · intro s hb
        rw [hb] at hsT
        rw [hsT] at haT
        exact (Option.some.inj haT).symm
      · intro b hb
        rw [hb] at hsC
        rw [hsC] at haC
        exact (Option.some.inj haC).symm
      · intro s hb
        rw [hb] at hsP
        rw [hsP] at haP
        exact (Option.some.inj haP).symm
      · intro d hb
        rw [hb] at hsD
        rw [haD, hsD]
        rfl
      · intro d hb
        rw [hb] at hsDD
        rw [haDD, hsDD]
        rfl

theorem patch_subset_frame_witness :
    (⟨1, "u1", "t", some "d", true, "low", some 7, 2, 9⟩ : Task).title =
      (⟨1, "u1", "t", some "d", false, "low", some 7, 2, 3⟩ : Task).title ∧
    (⟨1, "u1", "t", some "d", true, "low", some 7, 2, 9⟩ : Task).completed = true ∧
    (⟨1, "u1", "t", some "d", false, "low", some 7, 2, 3⟩ : Task).updated_at <
      (⟨1, "u1", "t", some "d", true, "low", some 7, 2, 9⟩ : Task).updated_at := by
  have h := patch_subset_frame [⟨1, "u1", "t", some "d", false, "low", some 7, 2, 3⟩]
    "u1" 1 9 ⟨none, none, some (some true), none, none⟩
    ⟨1, "u1", "t", some "d", false, "low", some 7, 2, 3⟩
    ⟨1, "u1", "t", some "d", true, "low", some 7, 2, 9⟩
    [⟨1, "u1", "t", some "d", true, "low", some 7, 2, 9⟩]
    (by decide) (by decide)
  exact ⟨h.1 rfl,
    h.2.2.2.2.2.2.2.2.2.2.2.1 true rfl,
    h.2.2.2.2.2.2.2.2.2.1 (by decide)⟩

lemma findTask_eq_none_of_owner_ne (db : List Task) (A B : String) (T : Task)
    (hmem : T ∈ db) (hA : T.user_id = A) (hBA : B ≠ A)
    (huniq : ∀ t1, t1 ∈ db → ∀ t2, t2 ∈ db → t1.id = t2.id → t1 = t2) :
    findTask db T.id B = none := by
  unfold findTask
  rw [List.find?_eq_none]
  intro t ht hp
  simp only [Bool.and_eq_true, beq_iff_eq] at hp
  obtain ⟨h1, h2⟩ := hp
  have heq : t = T := huniq t ht T hmem h1
  exact hBA (by rw [← h2, heq, hA])

lemma findTask_eq_none_of_fresh (db : List Task) (owner : String) (tid : Nat)
    (hfresh : ∀ t, t ∈ db → t.id ≠ tid) :
    findTask db tid owner = none := by
  unfold findTask
  rw [List.find?_eq_none]
  intro t ht hp
  simp only [Bool.and_eq_true, beq_iff_eq] at hp
  exact hfresh t ht hp.1

/-- C1: for a task T owned by A, each of the four id-addressed operations
invoked by B ≠ A (B being both the authenticated subject and the path
owner, so the access gate passes) fails with NotFound, returning none of
T's data, and produces literally the same result as invoking it with an id
no task has; moreover the NotFound outcome of the lookup coincides, for
every id, with the single owner+id query findTask returning no row - the
one query shape all four operations share. -/
theorem cross_user_id_addressed_404 (db : List Task) (A B : String) (T : Task)
    (tidFresh now : Nat) (putBody : TaskUpdateInput)
    (patchBody : TaskPartialUpdateInput)
    (hmem : T ∈ db) (hA : T.user_id = A) (hBA : B ≠ A)
    (huniq : ∀ t1, t1 ∈ db → ∀ t2, t2 ∈ db → t1.id = t2.id → t1 = t2)
    (hfresh : ∀ t, t ∈ db → t.id ≠ tidFresh)
    (hput : ∃ d, TaskUpdate.validate putBody = .ok d)
    (hpatch : ∃ d, TaskPartialUpdate.validate patchBody = .ok d) :
    get_task db B B T.id = .error .notFound ∧
    get_task db B B T.id = get_task db B B tidFresh ∧
    delete_task db B B T.id = .error .notFound ∧
    delete_task db B B T.id = delete_task db B B tidFresh ∧
    update_task db B B T.id putBody now = .error .notFound ∧
    update_task db B B T.id putBody now = update_task db B B tidFresh putBody now ∧
    patch_task db B B T.id patchBody now = .error .notFound ∧
    patch_task db B B T.id patchBody now = patch_task db B B tidFresh patchBody now ∧
    (∀ tid, get_task db B B tid = .error .notFound ↔ findTask db tid B = none) := by
  have h1 : findTask db T.id B = none :=
    findTask_eq_none_of_owner_ne db A B T hmem hA hBA huniq
  have h2 : findTask db tidFresh B = none :=
    findTask_eq_none_of_fresh db B tidFresh hfresh
  obtain ⟨dput, hdput⟩ := hput
  obtain ⟨dpatch, hdpatch⟩ := hpatch
  refine ⟨?_, ?_, ?_, ?_, ?_, ?_, ?_, ?_, ?_⟩
  · simp [get_task, verify_user_access_self, h1]
  · simp [get_task, verify_user_access_self, h1, h2]
  · simp [delete_task, verify_user_access_self, h1]
  · simp [delete_task, verify_user_access_self, h1, h2]
  · simp [update_task, hdput, verify_user_access_self, h1]
  · simp [update_task, hdput, verify_user_access_self, h1, h2]
  · simp [patch_task, hdpatch, verify_user_access_self, h1]
  · simp [patch_task, hdpatch, verify_user_access_self, h1, h2]
  · intro tid
    cases hf : findTask db tid B with
    | none => simp [get_task, verify_user_access_self, hf]
    | some t => simp [get_task, verify_user_access_self, hf]

theorem cross_user_id_addressed_404_witness :
    get_task [⟨1, "alice", "t", none, false, "medium", none, 0, 0⟩] "bob" "bob" 1 =
      .error .notFound ∧
    delete_task [⟨1, "alice", "t", none, false, "medium", none, 0, 0⟩] "bob" "bob" 1 =
      .error .notFound ∧
    update_task [⟨1, "alice", "t", none, false, "medium", none, 0, 0⟩] "bob" "bob" 1
      ⟨some "x", none, some true, some "low", none⟩ 9 = .error .notFound ∧
    patch_task [⟨1, "alice", "t", none, false, "medium", none, 0, 0⟩] "bob" "bob" 1
      ⟨none, none, none, none, none⟩ 9 = .error .notFound := by
  have h := cross_user_id_addressed_404
    [⟨1, "alice", "t", none, false, "medium", none, 0, 0⟩] "alice" "bob"
    ⟨1, "alice", "t", none, false, "medium", none, 0, 0⟩ 2 9
    ⟨some "x", none, some true, some "low", none⟩ ⟨none, none, none, none, none⟩
    (by decide) rfl (by decide) (by decide) (by decide)
    ⟨⟨"x", none, true, "low", none⟩, by decide⟩
    ⟨⟨none, none, none, none, none⟩, by decide⟩
  exact ⟨h.1, h.2.2.1, h.2.2.2.2.1, h.2.2.2.2.2.2.1⟩

end Todo
